import Mathlib

set_option maxRecDepth 8192

/- Shallow embedding of the Diplomacy game-log parsing script: schedule
loading (Time, TimeList), deadline queries (after_deadline) and message
construction (Message), with the Python string operations the script uses
modelled explicitly and executably. -/

/-- Python-style dynamic value: the schedule keeps years as the raw string
tokens while the message side passes years as integers. Python equality
between a string and an integer is always false. -/
inductive PyVal where
  | str : String → PyVal
  | int : Int → PyVal
deriving DecidableEq

/-- Python equality on our dynamic values: cross-type comparison is false. -/
def pyEq : PyVal → PyVal → Bool
  | .str a, .str b => a == b
  | .int a, .int b => a == b
  | _, _ => false

/-- Python str.split(sep) on character lists, with explicit fuel so the
recursion is structural; the fuel is always sufficient for the inputs used. -/
def pySplitFuel (sep : List Char) : Nat → List Char → List Char → List (List Char)
  | 0, acc, rest => [acc.reverse ++ rest]
  | _ + 1, acc, [] => [acc.reverse]
  | fuel + 1, acc, c :: rest =>
    if sep.isPrefixOf (c :: rest) then
      acc.reverse :: pySplitFuel sep fuel [] ((c :: rest).drop sep.length)
    else
      pySplitFuel sep fuel (c :: acc) rest

/-- Python str.split(sep) for a nonempty separator: non-overlapping
left-to-right matches, empty parts kept, whole string when no match. -/
def pySplit (s sep : String) : List String :=
  (pySplitFuel sep.toList (s.toList.length + 1) [] s.toList).map String.mk

/-- The characters Python str.strip() removes. -/
def pyWhite (c : Char) : Bool :=
  c == ' ' || c == '\t' || c == '\n' || c == '\r' || c == '\x0b' || c == '\x0c'

/-- Python str.strip(). -/
def pyStrip (s : String) : String :=
  String.mk (((s.toList.dropWhile pyWhite).reverse.dropWhile pyWhite).reverse)

/-- Python str.lower() on the ASCII inputs handled here. -/
def pyLower (s : String) : String :=
  String.mk (s.toList.map Char.toLower)

/-- Helper for Python str.title(): the flag records whether the previous
character was alphabetic. -/
def pyTitleGo : Bool → List Char → List Char
  | _, [] => []
  | prev, c :: cs =>
    (if c.isAlpha then (if prev then c.toLower else c.toUpper) else c) :: pyTitleGo c.isAlpha cs

/-- Python str.title(). -/
def pyTitle (s : String) : String :=
  String.mk (pyTitleGo false s.toList)

/-- line.lower().startswith(p) for an already lowercase literal p. -/
def startsWithCI (l : String) (p : String) : Bool :=
  p.toList.isPrefixOf (pyLower l).toList

/-- A nonempty run of decimal digits to its value. -/
def digitsToNat (cs : List Char) : Option Nat :=
  if !cs.isEmpty && cs.all Char.isDigit then
    some (cs.foldl (fun n c => n * 10 + (c.toNat - 48)) 0)
  else none

/-- datetime.strptime(s, hour-minute pattern), modelled as minutes after
midnight: one or two digit fields, hour at most 23, minute at most 59,
nothing before or after. -/
def parseHM (s : String) : Option Nat :=
  match pySplit s ":" with
  | [h, m] =>
    match digitsToNat h.toList, digitsToNat m.toList with
    | some hv, some mv =>
      if h.toList.length ≤ 2 && m.toList.length ≤ 2 && hv ≤ 23 && mv ≤ 59 then
        some (hv * 60 + mv)
      else none
    | _, _ => none
  | _ => none

/-- Python int(s) on a decimal literal with an optional sign and
surrounding whitespace. -/
def pyInt (s : String) : Option Int :=
  match (pyStrip s).toList with
  | '-' :: rest => (digitsToNat rest).map (fun n => -(n : Int))
  | '+' :: rest => (digitsToNat rest).map (fun n => (n : Int))
  | cs => (digitsToNat cs).map (fun n => (n : Int))

/-- sep.join(lines). -/
def pyJoin (sep : String) : List String → String
  | [] => ""
  | [x] => x
  | x :: xs => x ++ sep ++ pyJoin sep xs

/-- Failure kinds while loading the schedule: unpacking a line into the 9
expected fields fails (a ValueError in the source), or the 8th field does
not parse under the hour-minute time format (a ValueError from strptime).
The first kind is what the specification calls MalformedScheduleError. -/
inductive ScheduleError where
  | wrongTokenCount : ScheduleError
  | badTimeToken : ScheduleError
deriving DecidableEq

/-- One schedule record. The source unpacks the split line as season,
year, phase, weekday, month, day, year, time, timezone, keeping season,
year and phase as raw string tokens: the year is never converted to an
integer. The 8th token is parsed as the deadline time. -/
structure Time where
  season : String
  year : String
  phase : String
  time : Nat
deriving DecidableEq

/-- The field unpacking of the Time constructor on the split tokens. -/
def Time.ofToks : List String → Except ScheduleError Time
  | [s, y, p, _, _, _, _, t, _] =>
    match parseHM t with
    | some tm => .ok ⟨s, y, p, tm⟩
    | none => .error .badTimeToken
  | _ => .error .wrongTokenCount

/-- The Time constructor: strip the line, split on single spaces, unpack. -/
def Time.ofLine (line : String) : Except ScheduleError Time :=
  Time.ofToks (pySplit (pyStrip line) " ")

/-- The lines the TimeList constructor keeps: nonempty after strip and not
one of the two literal artefact lines. -/
def keepLine (l : String) : Bool :=
  !(pyStrip l == "") && !(pyStrip l == "Winter 1900") && !(pyStrip l == "Fall 1905 Retreat")

/-- The loaded deadline table. -/
structure TimeList where
  times : List Time
deriving DecidableEq

/-- The TimeList constructor over the lines of the schedule file: filter,
then build each Time in file order; the first bad line aborts the load. -/
def TimeList.load (lines : List String) : Except ScheduleError TimeList :=
  ((lines.filter keepLine).mapM Time.ofLine).map TimeList.mk

/-- Does a record match the queried season and year and have phase Orders?
The comparisons are Python equality; the year one is on dynamic values. -/
def matchesQuery (season : String) (year : PyVal) (t : Time) : Bool :=
  t.season == season && pyEq (.str t.year) year && t.phase == "Orders"

/-- The verdict of the matched branch of after_deadline: strictly before
the deadline is false, strictly after is true, and at the exact deadline
the message belongs to the next phase exactly when its body is shorter
than 50 characters. -/
def deadlineVerdict (time : Nat) (msg : String) (t : Time) : Bool :=
  if time < t.time then false
  else if time == t.time then decide (msg.length < 50)
  else true

/-- The record scan of after_deadline: the first matching Orders record
decides; falling off the loop is the implicit Python None return. -/
def afterDeadlineList (season : String) (year : PyVal) (time : Nat) (msg : String) : List Time → Option Bool
  | [] => none
  | t :: rest =>
    if matchesQuery season year t then some (deadlineVerdict time msg t)
    else afterDeadlineList season year time msg rest

/-- The after_deadline query of the deadline table. -/
def TimeList.after_deadline (tl : TimeList) (season : String) (year : PyVal) (time : Nat) (msg : String) : Option Bool :=
  afterDeadlineList season year time msg tl.times

/-- Decidable equality of results, so concrete runs can be checked by
evaluation. -/
instance exceptDecEq {e a : Type} [DecidableEq e] [DecidableEq a] : DecidableEq (Except e a) := fun x y =>
  match x, y with
  | .ok u, .ok v =>
    if h : u = v then isTrue (by rw [h]) else isFalse (by intro c; injection c; contradiction)
  | .error u, .error v =>
    if h : u = v then isTrue (by rw [h]) else isFalse (by intro c; injection c; contradiction)
  | .ok _, .error _ => isFalse (fun c => Except.noConfusion c)
  | .error _, .ok _ => isFalse (fun c => Except.noConfusion c)

/-- Is a result an error? -/
def isErr {e a : Type} : Except e a → Bool
  | .error _ => true
  | .ok _ => false

/-- Is a result a value? -/
def isOkE {e a : Type} (r : Except e a) : Bool := !(isErr r)

/-- Failure kinds of the Message constructor: a required header line is
missing (the StopIteration from next in the source, the case the
specification calls MalformedMessageError), an index on a split result is
out of range (an IndexError), the year token fails int() or the time token
fails strptime (ValueErrors). -/
inductive MessageError where
  | missingHeader : MessageError
  | indexOutOfRange : MessageError
  | badYearToken : MessageError
  | badTimeToken : MessageError
deriving DecidableEq

/-- The fields the Message constructor assigns: sender, year, season,
recipient, body and send time (minutes after midnight). -/
structure Message where
  from_ : String
  year : Int
  season : String
  to_ : String
  message : String
  time : Nat
deriving DecidableEq

/-- The field extraction of the Message constructor, in the exact source
order: locate the three header lines case-insensitively (a missing one
stops construction), join everything after the first CC line as the body,
then split each located header line on its exact-case literal and take
element 1, read year and season as the last and second-to-last tokens of
the date value, and parse the 5th token of the date line as the send time.
The deadline correction is applied afterwards by Message.ofTxt. -/
def Message.core (txt : String) : Except MessageError Message :=
  let lines := pySplit txt "\n"
  match lines.find? (fun l => startsWithCI l "from:") with
  | none => .error .missingHeader
  | some from_line =>
    match lines.find? (fun l => startsWithCI l "date:") with
    | none => .error .missingHeader
    | some date_line =>
      match lines.find? (fun l => startsWithCI l "cc:") with
      | none => .error .missingHeader
      | some to_line =>
        let to_line_index := lines.findIdx (fun l => startsWithCI l "cc:")
        let msg_body := pyJoin "\n" (lines.drop (to_line_index + 1))
        match pySplit from_line "From:" with
        | _ :: fromRaw :: _ =>
          let sender := pyTitle (pyLower (pyStrip fromRaw))
          match pySplit date_line "Date:" with
          | _ :: dateRaw :: _ =>
            let date := pyStrip dateRaw
            let dtoks := pySplit date " "
            match dtoks.getLast? with
            | some yearTok =>
              match pyInt yearTok with
              | some yearVal =>
                match dtoks.reverse with
                | _ :: seasonTok :: _ =>
                  match pySplit to_line "CC:" with
                  | _ :: toRaw :: _ =>
                    let recipient := pyTitle (pyLower (pyStrip toRaw))
                    let body := pyStrip msg_body
                    match pySplit date_line " " with
                    | _ :: _ :: _ :: _ :: timeTok :: _ =>
                      match parseHM timeTok with
                      | some tm => .ok ⟨sender, yearVal, seasonTok, recipient, body, tm⟩
                      | none => .error .badTimeToken
                    | _ => .error .indexOutOfRange
                  | _ => .error .indexOutOfRange
                | _ => .error .indexOutOfRange
              | none => .error .badYearToken
            | none => .error .indexOutOfRange
          | _ => .error .indexOutOfRange
        | _ => .error .indexOutOfRange

/-- The phase-advance branch at the end of the Message constructor,
factored over the query result: Python truthiness takes the branch only
when the query returned True; the year is bumped only from Fall, and the
season becomes Fall from Spring and Spring from anything else. -/
def resolveWith (adv : Option Bool) (m : Message) : Message :=
  if adv == some true then
    ⟨m.from_,
     if m.season == "Fall" then m.year + 1 else m.year,
     if m.season == "Spring" then "Fall" else "Spring",
     m.to_, m.message, m.time⟩
  else m

/-- The deadline correction exactly as the Message constructor invokes it:
the nominal year is passed to after_deadline as a Python int. -/
def resolveMsg (tl : TimeList) (m : Message) : Message :=
  resolveWith (tl.after_deadline m.season (.int m.year) m.time m.message) m

/-- The whole Message constructor: field extraction, then the deadline
correction of season and year. -/
def Message.ofTxt (txt : String) (tl : TimeList) : Except MessageError Message :=
  (Message.core txt).map (resolveMsg tl)

/-- The schedule line of the end-to-end scenario, with the time as the 7th
token and the year as the 8th, as written in the specification. -/
def c2ScheduleLine : String := "Fall 1904 Orders Mon Oct 7 16:45 1904 UTC"

/-- The same record with year and time swapped into the positions the Time
constructor actually unpacks: the 8th token is the time. -/
def c2FixedLine : String := "Fall 1904 Orders Mon Oct 7 1904 16:45 UTC"

/-- An 80-character message body. -/
def c2Body : String := String.mk (List.replicate 80 'a')

/-- The raw message block of the end-to-end scenario. -/
def c2Block : String := "From: A\nDate: Mon Oct 7 16:53 1904 Fall 1904\nCC: B\n" ++ c2Body

/-- The deadline table holding the Fall 1904 Orders record with deadline
16:45, that is, 1005 minutes after midnight. -/
def c2Table : TimeList := TimeList.mk [Time.mk "Fall" "1904" "Orders" 1005]

/-- A table with a single Fall 1904 Orders record, deadline 16:45. -/
def ordersTable : TimeList := TimeList.mk [Time.mk "Fall" "1904" "Orders" 1005]

/-- A 50-character message body. -/
def longBody : String := String.mk (List.replicate 50 'b')

/-- A schedule line with exactly 9 single-space-separated tokens whose 8th
token is not a valid hour-minute time. -/
def c9Line : String := "Fall 1904 Orders Mon Oct 7 1904 bogus UTC"

/-- A block whose located From line has a case-mismatched prefix but
contains the exact-case literal later in the line. -/
def c10Block : String := "FROM: From: Alice\nDate: Mon Oct 7 16:53 1904 Fall 1904\nCC: Bob\nhi"

/-- A block whose From header prefix differs in case and whose from line
nowhere contains the exact-case literal. -/
def c10BlockFrom : String := "FROM: Alice\nDate: Mon Oct 7 16:53 1904 Fall 1904\nCC: Bob\nhi"

/-- A block whose Date header prefix differs in case. -/
def c10BlockDate : String := "From: Alice\nDATE: Mon Oct 7 16:53 1904 Fall 1904\nCC: Bob\nhi"

/-- A block whose CC header prefix differs in case. -/
def c10BlockCc : String := "From: Alice\nDate: Mon Oct 7 16:53 1904 Fall 1904\ncc: Bob\nhi"

/-- Sample message nominally in Spring 1901. -/
def springMsg : Message := Message.mk "A" 1901 "Spring" "B" "x" 0

/-- Sample message nominally in Fall 1901. -/
def fallMsg : Message := Message.mk "A" 1901 "Fall" "B" "x" 0

/-- The scan of after_deadline is the verdict of the first matching
record, when one exists. -/
theorem afterDeadlineList_eq_find (season : String) (year : PyVal) (tm : Nat) (msg : String) :
    ∀ ts : List Time,
      afterDeadlineList season year tm msg ts
        = (ts.find? (matchesQuery season year)).map (deadlineVerdict tm msg) := by
  intro ts
  induction ts with
  | nil => rfl
  | cons t rest ih =>
    cases h : matchesQuery season year t with
    | true => simp [afterDeadlineList, List.find?, h]
    | false => simp [afterDeadlineList, List.find?, h, ih]

/-- The query of the table is the verdict of the first matching record. -/
theorem after_deadline_eq_find (tl : TimeList) (season : String) (year : PyVal) (tm : Nat) (msg : String) :
    tl.after_deadline season year tm msg
      = (tl.times.find? (matchesQuery season year)).map (deadlineVerdict tm msg) :=
  afterDeadlineList_eq_find season year tm msg tl.times

/-- A list of length at least two starts with two elements. -/
theorem exists_cons_cons_of_two_le {α : Type} :
    ∀ l : List α, 2 ≤ l.length → ∃ a b t, l = a :: b :: t := by
  intro l h
  rcases l with _ | ⟨a, _ | ⟨b, t⟩⟩
  · simp at h
  · simp at h
  · exact ⟨a, b, t, rfl⟩

/-- C1: the schedule stores record years as strings while the Message
constructor queries after_deadline with an integer year, and Python
equality between a string and an integer is always false; hence a message
query never finds a matching record (after_deadline yields its implicit
None), the phase-advance branch is never taken, and the constructed
message always keeps its nominal season and year: the deadline table does
not affect the result at all. -/
theorem c1_resolution_never_fires :
    (∀ (tl : TimeList) (season : String) (year : Int) (tm : Nat) (msg : String),
      tl.after_deadline season (PyVal.int year) tm msg = none)
    ∧ (∀ (tl : TimeList) (m : Message), resolveMsg tl m = m)
    ∧ (∀ (txt : String) (tl : TimeList), Message.ofTxt txt tl = Message.core txt) := by
  have key : ∀ (season : String) (year : Int) (tm : Nat) (msg : String) (ts : List Time),
      afterDeadlineList season (PyVal.int year) tm msg ts = none := by
    intro season year tm msg ts
    induction ts with
    | nil => rfl
    | cons t rest ih => simp [afterDeadlineList, matchesQuery, pyEq, ih]
  have keym : ∀ (tl : TimeList) (m : Message), resolveMsg tl m = m := by
    intro tl m
    show resolveWith (afterDeadlineList m.season (PyVal.int m.year) m.time m.message tl.times) m = m
    rw [key]
    rfl
  refine ⟨fun tl season year tm msg => key season year tm msg tl.times, keym, ?_⟩
  intro txt tl
  unfold Message.ofTxt
  cases hc : Message.core txt with
  | error e => rfl
  | ok m => simp [Except.map, keym]

/-- C5: the phase-advance step of the Message constructor, factored over
the after_deadline verdict: when the query answers True a nominal Spring
becomes Fall of the same year and a nominal Fall becomes Spring of the
following year, and when it answers False the message is unchanged; the
first conjunct records that the constructor applies exactly this step to
the verdict of the query on the nominal fields. -/
theorem c5_phase_advance :
    (∀ (tl : TimeList) (m : Message),
      resolveMsg tl m
        = resolveWith (tl.after_deadline m.season (PyVal.int m.year) m.time m.message) m)
    ∧ (∀ m : Message, m.season = "Spring" →
        (resolveWith (some true) m).season = "Fall" ∧ (resolveWith (some true) m).year = m.year)
    ∧ (∀ m : Message, m.season = "Fall" →
        (resolveWith (some true) m).season = "Spring" ∧ (resolveWith (some true) m).year = m.year + 1)
    ∧ (∀ m : Message, resolveWith (some false) m = m) := by
  refine ⟨fun tl m => rfl, ?_, ?_, fun m => rfl⟩
  · intro m h
    simp [resolveWith, h]
  · intro m h
    simp [resolveWith, h]

/-- C5 witness: the advance step at concrete Spring 1901 and Fall 1901
messages, and the no-change case. -/
theorem c5_phase_advance_witness :
    ((resolveWith (some true) springMsg).season = "Fall"
      ∧ (resolveWith (some true) springMsg).year = springMsg.year)
    ∧ ((resolveWith (some true) fallMsg).season = "Spring"
      ∧ (resolveWith (some true) fallMsg).year = fallMsg.year + 1)
    ∧ resolveWith (some false) springMsg = springMsg :=
  ⟨c5_phase_advance.2.1 springMsg (by decide),
   c5_phase_advance.2.2.1 fallMsg (by decide),
   c5_phase_advance.2.2.2 springMsg⟩

/-- C3: when the table scan finds a matching Orders record and the message
send time equals that record's deadline time exactly, after_deadline
answers true for a body strictly shorter than 50 characters and false for
a body of 50 characters or more. -/
theorem c3_tie_break :
    ∀ (tl : TimeList) (season : String) (year : PyVal) (msg : String) (t : Time),
      tl.times.find? (matchesQuery season year) = some t →
      (msg.length < 50 → tl.after_deadline season year t.time msg = some true)
      ∧ (50 ≤ msg.length → tl.after_deadline season year t.time msg = some false) := by
  intro tl season year msg t hfind
  have h := after_deadline_eq_find tl season year t.time msg
  rw [hfind] at h
  constructor
  · intro hlt
    rw [h]
    simp [deadlineVerdict, hlt]
  · intro hge
    rw [h]
    simp [deadlineVerdict]
    omega

/-- C3 witness: at the 16:45 deadline of the Fall 1904 Orders record, a
4-character body answers true and a 50-character body answers false. -/
theorem c3_tie_break_witness :
    ordersTable.after_deadline "Fall" (PyVal.str "1904") 1005 "late" = some true
    ∧ ordersTable.after_deadline "Fall" (PyVal.str "1904") 1005 longBody = some false :=
  ⟨(c3_tie_break ordersTable "Fall" (PyVal.str "1904") "late"
      (Time.mk "Fall" "1904" "Orders" 1005) (by decide)).1 (by decide),
   (c3_tie_break ordersTable "Fall" (PyVal.str "1904") longBody
      (Time.mk "Fall" "1904" "Orders" 1005) (by decide)).2 (by decide)⟩

/-- C4: when the table scan finds a matching Orders record, a send time
strictly before its deadline answers false and a send time strictly after
it answers true, for every body. -/
theorem c4_strict_order :
    ∀ (tl : TimeList) (season : String) (year : PyVal) (msg : String) (t : Time) (tm : Nat),
      tl.times.find? (matchesQuery season year) = some t →
      (tm < t.time → tl.after_deadline season year tm msg = some false)
      ∧ (t.time < tm → tl.after_deadline season year tm msg = some true) := by
  intro tl season year msg t tm hfind
  have h := after_deadline_eq_find tl season year tm msg
  rw [hfind] at h
  constructor
  · intro hlt
    rw [h]
    simp [deadlineVerdict, hlt]
  · intro hgt
    rw [h]
    have h1 : ¬ tm < t.time := by omega
    have h2 : (tm == t.time) = false := by
      simp only [beq_eq_false_iff_ne, ne_eq]
      omega
    simp [deadlineVerdict, h1, h2]

/-- C4 witness: one minute before the 16:45 deadline a 50-character body
answers false; one minute after it answers true. -/
theorem c4_strict_order_witness :
    ordersTable.after_deadline "Fall" (PyVal.str "1904") 1004 longBody = some false
    ∧ ordersTable.after_deadline "Fall" (PyVal.str "1904") 1006 longBody = some true :=
  ⟨(c4_strict_order ordersTable "Fall" (PyVal.str "1904") longBody
      (Time.mk "Fall" "1904" "Orders" 1005) 1004 (by decide)).1 (by decide),
   (c4_strict_order ordersTable "Fall" (PyVal.str "1904") longBody
      (Time.mk "Fall" "1904" "Orders" 1005) 1006 (by decide)).2 (by decide)⟩

/-- C6 counterexample: querying a table with no matching Orders record
does not signal any error; the function falls off its loop and yields the
implicit Python None return, an ordinary value. -/
theorem c6_counter_returns_none :
    TimeList.after_deadline (TimeList.mk []) "Fall" (PyVal.int 1904) 1013 "retreat orders" = none := rfl

/-- C6 amended: when no loaded record matches the queried season and year
with phase Orders, after_deadline returns the implicit None rather than
raising; the caller then treats the missing verdict as false. -/
theorem c6_no_match_returns_none :
    ∀ (tl : TimeList) (season : String) (year : PyVal) (tm : Nat) (msg : String),
      tl.times.find? (matchesQuery season year) = none →
      tl.after_deadline season year tm msg = none := by
  intro tl season year tm msg h
  rw [after_deadline_eq_find, h]
  rfl

/-- C6 witness: a table whose only record is Fall 1904 Orders has no match
for Spring 1905. -/
theorem c6_no_match_witness :
    ordersTable.after_deadline "Spring" (PyVal.str "1905") 1005 "x" = none :=
  c6_no_match_returns_none ordersTable "Spring" (PyVal.str "1905") 1005 "x" (by decide)

/-- C7: a line that the schedule filter drops, anywhere in the file, never
contributes a record and never causes a load failure: loading with it
equals loading without it; and the filter drops exactly the lines that are
whitespace-only or strip to one of the two literal artefact lines, in
particular the literal lines themselves. -/
theorem c7_filtered_lines :
    (∀ (pre post : List String) (l : String), keepLine l = false →
      TimeList.load (pre ++ l :: post) = TimeList.load (pre ++ post))
    ∧ keepLine "Winter 1900" = false
    ∧ keepLine "Fall 1905 Retreat" = false
    ∧ (∀ l : String, pyStrip l = "" → keepLine l = false) := by
  refine ⟨?_, by decide, by decide, ?_⟩
  · intro pre post l h
    unfold TimeList.load
    simp [List.filter_append, List.filter_cons, h]
  · intro l h
    simp [keepLine, h]

/-- C7 witness: loading just the Winter 1900 line equals loading nothing,
and a whitespace-only line is dropped. -/
theorem c7_filtered_lines_witness :
    TimeList.load ["Winter 1900"] = TimeList.load []
    ∧ keepLine "  \n" = false :=
  ⟨c7_filtered_lines.1 [] [] "Winter 1900" (by decide),
   c7_filtered_lines.2.2.2 "  \n" (by decide)⟩

/-- C2: evaluation of the code on the specified end-to-end scenario. The
body has length 80, yet loading the given schedule line itself fails: the
Time constructor takes the 8th token, here the string 1904, as the time,
and strptime rejects it. Even over the corresponding loadable table (time
as the 8th token, giving the Fall 1904 Orders record with deadline 16:45)
the block resolves to Fall 1904, not Spring 1905, because the string year
of the record never equals the integer year of the message. -/
theorem c2_end_to_end_eval :
    c2Body.length = 80
    ∧ TimeList.load [c2ScheduleLine] = .error .badTimeToken
    ∧ TimeList.load [c2FixedLine] = .ok c2Table
    ∧ (Message.ofTxt c2Block c2Table).map (fun m => (m.season, m.year)) = .ok ("Fall", 1904) := by
  refine ⟨by decide, by decide, by decide, by decide⟩

/-- C8: a raw block in which one of the three required header lines is
absent under the case-insensitive search fails with the missing-header
error (the StopIteration that the specification calls
MalformedMessageError) and yields no message value. -/
theorem c8_missing_header :
    ∀ (txt : String) (tl : TimeList),
      ((∀ l ∈ pySplit txt "\n", startsWithCI l "from:" = false)
      ∨ (∀ l ∈ pySplit txt "\n", startsWithCI l "date:" = false)
      ∨ (∀ l ∈ pySplit txt "\n", startsWithCI l "cc:" = false)) →
      Message.ofTxt txt tl = .error .missingHeader := by
  intro txt tl h
  have hcore : Message.core txt = .error .missingHeader := by
    rcases h with h | h | h
    · have hn : (pySplit txt "\n").find? (fun l => startsWithCI l "from:") = none :=
        List.find?_eq_none.mpr (by intro x hx; simp [h x hx])
      simp [Message.core, hn]
    · have hn : (pySplit txt "\n").find? (fun l => startsWithCI l "date:") = none :=
        List.find?_eq_none.mpr (by intro x hx; simp [h x hx])
      cases hf : (pySplit txt "\n").find? (fun l => startsWithCI l "from:") with
      | none => simp [Message.core, hf]
      | some fl => simp [Message.core, hf, hn]
    · have hn : (pySplit txt "\n").find? (fun l => startsWithCI l "cc:") = none :=
        List.find?_eq_none.mpr (by intro x hx; simp [h x hx])
      cases hf : (pySplit txt "\n").find? (fun l => startsWithCI l "from:") with
      | none => simp [Message.core, hf]
      | some fl =>
        cases hd : (pySplit txt "\n").find? (fun l => startsWithCI l "date:") with
        | none => simp [Message.core, hf, hd]
        | some dl => simp [Message.core, hf, hd, hn]
  unfold Message.ofTxt
  rw [hcore]
  rfl

/-- C8 witness: a block with a From line and a body but no Date and no CC
line fails with the missing-header error. -/
theorem c8_missing_header_witness :
    Message.ofTxt "From: Alice\nhello" (TimeList.mk []) = .error .missingHeader :=
  c8_missing_header "From: Alice\nhello" (TimeList.mk [])
    (Or.inr (Or.inl (by decide)))

/-- C9 counterexample: a non-filtered line that splits into exactly 9
single-space-separated tokens still fails to load when its 8th token is
not a valid hour-minute time, so failing is not equivalent to the token
count being different from 9. -/
theorem c9_counter_nine_tokens_fail :
    keepLine c9Line = true
    ∧ (pySplit (pyStrip c9Line) " ").length = 9
    ∧ Time.ofLine c9Line = .error .badTimeToken
    ∧ TimeList.load [c9Line] = .error .badTimeToken := by
  refine ⟨by decide, by decide, by decide, by decide⟩

/-- C9 amended: building a record from a line fails exactly when the
stripped line does not split on single spaces into exactly 9 tokens
(consecutive spaces produce empty tokens that count), or when it does and
the 8th token does not parse under the hour-minute time format. -/
theorem c9_parse_error_iff :
    ∀ l : String,
      isErr (Time.ofLine l) = true ↔
        ((pySplit (pyStrip l) " ").length ≠ 9
        ∨ parseHM ((pySplit (pyStrip l) " ").getD 7 "") = none) := by
  intro l
  unfold Time.ofLine
  generalize pySplit (pyStrip l) " " = toks
  rcases toks with _ | ⟨a, _ | ⟨b, _ | ⟨c, _ | ⟨d, _ | ⟨e, _ | ⟨f, _ | ⟨g, _ | ⟨t8, _ | ⟨i, rest⟩⟩⟩⟩⟩⟩⟩⟩⟩
  case nil => simp [Time.ofToks, isErr]
  case cons.nil => simp [Time.ofToks, isErr]
  case cons.cons.nil => simp [Time.ofToks, isErr]
  case cons.cons.cons.nil => simp [Time.ofToks, isErr]
  case cons.cons.cons.cons.nil => simp [Time.ofToks, isErr]
  case cons.cons.cons.cons.cons.nil => simp [Time.ofToks, isErr]
  case cons.cons.cons.cons.cons.cons.nil => simp [Time.ofToks, isErr]
  case cons.cons.cons.cons.cons.cons.cons.nil => simp [Time.ofToks, isErr]
  case cons.cons.cons.cons.cons.cons.cons.cons.nil => simp [Time.ofToks, isErr]
  case cons.cons.cons.cons.cons.cons.cons.cons.cons =>
    rcases rest with _ | ⟨j, rest2⟩
    · cases hp : parseHM t8 with
      | some tm => simp [Time.ofToks, isErr, hp, List.getD]
      | none => simp [Time.ofToks, isErr, hp, List.getD]
    · simp [Time.ofToks, isErr]

/-- C9 witness: a two-token line fails, per the token-count disjunct. -/
theorem c9_parse_error_iff_witness :
    isErr (Time.ofLine "Fall 1904") = true :=
  (c9_parse_error_iff "Fall 1904").mpr (Or.inl (by decide))

/-- C10 counterexample: a block whose located From line has a
case-mismatched prefix (it is found case-insensitively, and the exact-case
literal is not a prefix of the block) but contains the exact-case literal
later in the line is parsed successfully into a message, so a case
mismatch in the header prefix does not always fail. -/
theorem c10_counter_literal_elsewhere :
    ("From:".toList.isPrefixOf c10Block.toList = false)
    ∧ startsWithCI "FROM: From: Alice" "from:" = true
    ∧ isOkE (Message.ofTxt c10Block (TimeList.mk [])) = true := by
  refine ⟨by decide, by decide, by decide⟩

/-- C10 amended: headers are located case-insensitively but their values
are taken from a split on the exact-case literal, so construction fails
with the out-of-range error whenever the located header line does not
contain the exact-case literal anywhere: directly for the From line; for
the Date line once the From split succeeded; and for the CC line once the
From and Date splits succeeded, the year token converted, and the date
value had at least two tokens. -/
theorem c10_case_mismatch_index_error :
    ∀ (txt : String) (tl : TimeList) (fl dl cl : String),
      (pySplit txt "\n").find? (fun l => startsWithCI l "from:") = some fl →
      (pySplit txt "\n").find? (fun l => startsWithCI l "date:") = some dl →
      (pySplit txt "\n").find? (fun l => startsWithCI l "cc:") = some cl →
      ((pySplit fl "From:").length = 1 → Message.ofTxt txt tl = .error .indexOutOfRange)
      ∧ (2 ≤ (pySplit fl "From:").length → (pySplit dl "Date:").length = 1 →
          Message.ofTxt txt tl = .error .indexOutOfRange)
      ∧ (∀ (d0 d1 : String) (dr : List String) (yt : String) (yv : Int),
          2 ≤ (pySplit fl "From:").length →
          pySplit dl "Date:" = d0 :: d1 :: dr →
          (pySplit (pyStrip d1) " ").getLast? = some yt →
          pyInt yt = some yv →
          2 ≤ (pySplit (pyStrip d1) " ").length →
          (pySplit cl "CC:").length = 1 →
          Message.ofTxt txt tl = .error .indexOutOfRange) := by
  intro txt tl fl dl cl hf hd hc
  have herr : ∀ e, Message.core txt = .error e → Message.ofTxt txt tl = .error e := by
    intro e he
    unfold Message.ofTxt
    rw [he]
    rfl
  refine ⟨?_, ?_, ?_⟩
  · intro h1
    apply herr
    obtain ⟨a, ha⟩ := List.length_eq_one.mp h1
    simp [Message.core, hf, hd, hc, ha]
  · intro h2 h1
    apply herr
    obtain ⟨a, b, r, hab⟩ := exists_cons_cons_of_two_le _ h2
    obtain ⟨d, hdd⟩ := List.length_eq_one.mp h1
    simp [Message.core, hf, hd, hc, hab, hdd]
  · intro d0 d1 dr yt yv h2f hdsplit hlast hyint hlen2 hcc1
    apply herr
    obtain ⟨a, b, r, hab⟩ := exists_cons_cons_of_two_le _ h2f
    obtain ⟨cone, hcone⟩ := List.length_eq_one.mp hcc1
    have hrl : 2 ≤ (pySplit (pyStrip d1) " ").reverse.length := by simpa using hlen2
    obtain ⟨r1, r2, rr, hrev⟩ := exists_cons_cons_of_two_le _ hrl
    simp [Message.core, hf, hd, hc, hab, hdsplit, hlast, hyint, hrev, hcone]

/-- C10 witness: the three header positions each fail with the
out-of-range error on blocks whose mismatched header line lacks the
exact-case literal. -/
theorem c10_case_mismatch_witness :
    Message.ofTxt c10BlockFrom (TimeList.mk []) = .error .indexOutOfRange
    ∧ Message.ofTxt c10BlockDate (TimeList.mk []) = .error .indexOutOfRange
    ∧ Message.ofTxt c10BlockCc (TimeList.mk []) = .error .indexOutOfRange :=
  ⟨(c10_case_mismatch_index_error c10BlockFrom (TimeList.mk [])
      "FROM: Alice" "Date: Mon Oct 7 16:53 1904 Fall 1904" "CC: Bob"
      (by decide) (by decide) (by decide)).1 (by decide),
   (c10_case_mismatch_index_error c10BlockDate (TimeList.mk [])
      "From: Alice" "DATE: Mon Oct 7 16:53 1904 Fall 1904" "CC: Bob"
      (by decide) (by decide) (by decide)).2.1 (by decide) (by decide),
   (c10_case_mismatch_index_error c10BlockCc (TimeList.mk [])
      "From: Alice" "Date: Mon Oct 7 16:53 1904 Fall 1904" "cc: Bob"
      (by decide) (by decide) (by decide)).2.2
      "" " Mon Oct 7 16:53 1904 Fall 1904" [] "1904" 1904
      (by decide) (by decide) (by decide) (by decide) (by decide) (by decide)⟩
